import Mathlib

/-!
Verification development for the Dialogflow webhook backend in src/server.js.

The JavaScript code is shallowly embedded: JavaScript values occurring in
webhook payloads and stored records are modelled by the inductive type
JsVal, the pure helper functions of the server are translated one by one,
and the whole POST /dialogflow request handler is modelled as a pure state
transformer over the two in-memory pending-session sets, with the external
generative-model call abstracted as an oracle function and the records
passed to the persistence gateway collected in lists.
-/

namespace Server

/-- Model of a JavaScript number: a finite value (decimal values are
exact rationals), the two infinities produced by the Infinity literal of
parseFloat, and NaN.  Numbers arriving in JSON payloads are always
finite. -/
inductive JsNumber where
  | finite (q : ℚ)
  | posInf
  | negInf
  | nan
deriving DecidableEq

/-- Model of a JavaScript value as it appears in webhook payloads and
records: undefined, null, booleans, numbers, strings and objects (as
ordered field lists with distinct keys). -/
inductive JsVal where
  | undefined
  | null
  | bool (b : Bool)
  | num (x : JsNumber)
  | str (s : String)
  | obj (fields : List (String × JsVal))

/-- JavaScript truthiness of a value: zero and NaN are the falsy
numbers, the infinities are truthy. -/
def JsVal.truthy : JsVal → Bool
  | .undefined => false
  | .null => false
  | .bool b => b
  | .num (.finite q) => if q = 0 then false else true
  | .num .nan => false
  | .num _ => true
  | .str s => if s = "" then false else true
  | .obj _ => true

/-- First binding of a key in an object field list; missing keys read as
undefined.  Field lists are assumed to have distinct keys, matching the
literals the server builds. -/
def getField : List (String × JsVal) → String → JsVal
  | [], _ => .undefined
  | (k, v) :: rest, key => if k = key then v else getField rest key

/-- Property access on a value.  On non-objects it yields undefined; the
server only dereferences values it has guarded to be truthy objects or
whose dereference JavaScript itself resolves to undefined. -/
def JsVal.get : JsVal → String → JsVal
  | .obj fields, key => getField fields key
  | _, _ => .undefined

/-- JavaScript short-circuit disjunction on values. -/
def jsOr (a b : JsVal) : JsVal := if a.truthy then a else b

/-- JavaScript short-circuit conjunction on values. -/
def jsAnd (a b : JsVal) : JsVal := if a.truthy then b else a

/-- Whitespace as recognised by the ECMAScript trim and parseFloat
operations: the WhiteSpace productions TAB, VT, FF, ZWNBSP and the
Space_Separator code points (space, NBSP, Ogham space mark, the U+2000
to U+200A range, narrow no-break space, medium mathematical space,
ideographic space), together with the LineTerminator productions LF, CR,
LS and PS. -/
def isJsWhitespace (c : Char) : Bool :=
  c.toNat == 9 || c.toNat == 10 || c.toNat == 11 || c.toNat == 12 || c.toNat == 13 ||
    c.toNat == 32 || c.toNat == 160 || c.toNat == 0x1680 ||
    decide (0x2000 ≤ c.toNat ∧ c.toNat ≤ 0x200A) ||
    c.toNat == 0x2028 || c.toNat == 0x2029 || c.toNat == 0x202F ||
    c.toNat == 0x205F || c.toNat == 0x3000 || c.toNat == 0xFEFF

/-- Left trim on character lists. -/
def trimLeftChars (cs : List Char) : List Char := cs.dropWhile isJsWhitespace

/-- Right trim on character lists. -/
def trimRightChars (cs : List Char) : List Char := (cs.reverse.dropWhile isJsWhitespace).reverse

/-- Model of the JavaScript String.prototype.trim method. -/
def jsTrim (s : String) : String := ⟨trimRightChars (trimLeftChars s.data)⟩

/-- Model of the JavaScript toLowerCase method on the character list; it
agrees with the library toLower character by character. -/
def jsToLower (s : String) : String := ⟨s.data.map Char.toLower⟩

/-- Model of the JavaScript String(x) conversion for the value shapes of
this server.  The formatting of numbers abstracts the ECMAScript
number-to-string algorithm; no property proved below depends on it. -/
def jsToString : JsVal → String
  | .undefined => "undefined"
  | .null => "null"
  | .bool b => if b then "true" else "false"
  | .num (.finite q) => toString q
  | .num .posInf => "Infinity"
  | .num .negInf => "-Infinity"
  | .num .nan => "NaN"
  | .str s => s
  | .obj _ => "[object Object]"

/-- Digit-run parser used by the parseFloat model: consumes leading
decimal digits, returning the accumulated value, the number of digits
consumed and the remaining characters. -/
def parseDigitsAux : List Char → Nat → Nat → Nat × Nat × List Char
  | [], acc, n => (acc, n, [])
  | c :: rest, acc, n =>
    if c.isDigit then parseDigitsAux rest (acc * 10 + (c.toNat - 48)) (n + 1)
    else (acc, n, c :: rest)

/-- Model of the JavaScript parseFloat builtin: skip leading ECMAScript
whitespace, take an optional sign, then parse the longest prefix that is
an Infinity literal or a decimal literal with optional fraction and
optional exponent part; when no such prefix exists the result is NaN. -/
def jsParseFloat (s : String) : JsNumber :=
  let cs := s.data.dropWhile isJsWhitespace
  let signAndRest : ℚ × List Char :=
    match cs with
    | '-' :: rest => (-1, rest)
    | '+' :: rest => (1, rest)
    | _ => (1, cs)
  if ['I', 'n', 'f', 'i', 'n', 'i', 't', 'y'].isPrefixOf signAndRest.2 then
    if signAndRest.1 = 1 then JsNumber.posInf else JsNumber.negInf
  else
    let intPart := parseDigitsAux signAndRest.2 0 0
    let fracPart :=
      match intPart.2.2 with
      | '.' :: rest => parseDigitsAux rest 0 0
      | _ => (0, 0, intPart.2.2)
    if intPart.2.1 = 0 ∧ fracPart.2.1 = 0 then JsNumber.nan
    else
      let expPart : ℤ :=
        match fracPart.2.2 with
        | 'e' :: '-' :: rest =>
          let d := parseDigitsAux rest 0 0
          if d.2.1 = 0 then 0 else -(d.1 : ℤ)
        | 'e' :: '+' :: rest =>
          let d := parseDigitsAux rest 0 0
          if d.2.1 = 0 then 0 else (d.1 : ℤ)
        | 'e' :: rest =>
          let d := parseDigitsAux rest 0 0
          if d.2.1 = 0 then 0 else (d.1 : ℤ)
        | 'E' :: '-' :: rest =>
          let d := parseDigitsAux rest 0 0
          if d.2.1 = 0 then 0 else -(d.1 : ℤ)
        | 'E' :: '+' :: rest =>
          let d := parseDigitsAux rest 0 0
          if d.2.1 = 0 then 0 else (d.1 : ℤ)
        | 'E' :: rest =>
          let d := parseDigitsAux rest 0 0
          if d.2.1 = 0 then 0 else (d.1 : ℤ)
        | _ => 0
      JsNumber.finite (signAndRest.1 *
        ((intPart.1 : ℚ) + (fracPart.1 : ℚ) / (10 : ℚ) ^ fracPart.2.1) * (10 : ℚ) ^ expPart)

/-- Translation of normalizeString (src/server.js lines 143-152).  A
falsy value yields null; a string is trimmed with the empty result
collapsing to null; an object is unwrapped through its name, original and
displayName sub-fields, the unwrapped value being stringified and trimmed
without a null collapse; anything else yields null.  The result type
Option String uses none for the JavaScript null return. -/
def normalizeString (value : JsVal) : Option String :=
  if value.truthy = false then none
  else
    match value with
    | .str s => if jsTrim s = "" then none else some (jsTrim s)
    | .obj fields =>
      if (getField fields "name").truthy then some (jsTrim (jsToString (getField fields "name")))
      else if (getField fields "original").truthy then
        some (jsTrim (jsToString (getField fields "original")))
      else if (getField fields "displayName").truthy then
        some (jsTrim (jsToString (getField fields "displayName")))
      else none
    | _ => none

/-- Translation of extractName (src/server.js lines 154-163): the
JavaScript disjunction chain name, person, person and person.name, person
and person.original, given-name, passed to normalizeString. -/
def extractName (parameters : JsVal) : Option String :=
  if parameters.truthy = false then none
  else
    normalizeString
      (jsOr (parameters.get "name")
        (jsOr (parameters.get "person")
          (jsOr (jsAnd (parameters.get "person") ((parameters.get "person").get "name"))
            (jsOr (jsAnd (parameters.get "person") ((parameters.get "person").get "original"))
              (parameters.get "given-name")))))

/-- Translation of extractEmail (src/server.js lines 165-169). -/
def extractEmail (parameters : JsVal) : Option String :=
  if parameters.truthy = false then none
  else
    normalizeString
      (jsOr (parameters.get "email")
        (jsOr (parameters.get "emailAddress") (parameters.get "email-address")))

/-- Translation of extractUserMessage (src/server.js lines 171-181); the
fallback text is the query text, always a string at the call sites. -/
def extractUserMessage (parameters : JsVal) (fallbackText : String) : Option String :=
  if parameters.truthy = false then normalizeString (.str fallbackText)
  else
    normalizeString
      (jsOr (parameters.get "problem")
        (jsOr (parameters.get "issue")
          (jsOr (parameters.get "message")
            (jsOr (parameters.get "problem-description")
              (jsOr (parameters.get "customer_message") (.str fallbackText))))))

/-- Translation of extractRating (src/server.js lines 183-191): truthiness
chain over rating, score, feedback-rating; undefined and null yield null;
numbers are returned as is; anything else is normalized and passed through
parseFloat, the Number.isNaN guard collapsing NaN to null.  parseFloat
applied to a null normalization result is NaN in JavaScript, hence none
here. -/
def extractRating (parameters : JsVal) : Option JsNumber :=
  if parameters.truthy = false then none
  else
    match jsOr (parameters.get "rating")
        (jsOr (parameters.get "score") (parameters.get "feedback-rating")) with
    | .undefined => none
    | .null => none
    | .num x => some x
    | v =>
      match normalizeString v with
      | none => none
      | some s =>
        match jsParseFloat s with
        | .nan => none
        | x => some x

/-- Translation of extractFaqTopic (src/server.js lines 193-201). -/
def extractFaqTopic (parameters : JsVal) (fallbackText : String) : Option String :=
  if parameters.truthy = false then normalizeString (.str fallbackText)
  else
    normalizeString
      (jsOr (parameters.get "topic")
        (jsOr (parameters.get "subject")
          (jsOr (parameters.get "faq-topic") (.str fallbackText))))

/-- Per-field sanitization rule of the persistence gateway (src/server.js
lines 209-218): undefined becomes null, a string that is blank after
trimming becomes null, every other value is unchanged. -/
def sanitizeValue (value : JsVal) : JsVal :=
  match value with
  | .undefined => .null
  | .str s => if jsTrim s = "" then .null else .str s
  | v => v

/-- Translation of the sanitizedRecord fold in saveConversationRecord
(src/server.js lines 209-218); the same fold appears verbatim in
saveFaqRecord and saveFeedbackRecord.  Object.entries and the reduce over
an accumulator object are modelled as a fold over the ordered field list. -/
def sanitizeRecord (record : List (String × JsVal)) : List (String × JsVal) :=
  record.foldl
    (fun acc kv =>
      match kv.2 with
      | .undefined => acc ++ [(kv.1, JsVal.null)]
      | .str s =>
        if jsTrim s = "" then acc ++ [(kv.1, JsVal.null)] else acc ++ [(kv.1, JsVal.str s)]
      | v => acc ++ [(kv.1, v)]) []

/-- Single-quote character, used to assemble the FAQ answer literals. -/
def sq : String := (Char.ofNat 39).toString

/-- Answer of the predefined FAQ entry for the question How do I create an
account (src/server.js lines 85-88). -/
def createAccountAnswer : String :=
  "To create an account, simply click on the " ++ sq ++ "Sign Up" ++ sq ++
    " button on our website, enter your details, and follow the instructions to verify your email."

/-- Translation of FAQ_PREDEFINED (src/server.js lines 73-134), as ordered
question-answer pairs. -/
def FAQ_PREDEFINED : List (String × String) :=
  [ ("How can I contact customer support?",
     "You can reach our customer support team through live chat, email, or by submitting a ticket on our support page. Our team is available 24/7 to assist you."),
    ("What is the average response time?",
     "Our typical response time is within a few minutes via live chat and within 12–24 hours for email or ticket inquiries."),
    ("How do I create an account?", createAccountAnswer),
    ("I forgot my password. How can I reset it?",
     "Click on the " ++ sq ++ "Forgot Password" ++ sq ++ " option on the login page, enter your registered email, and follow the secure link sent to you to reset your password."),
    ("How do I track my order or request?",
     "You can track your order or service request by logging into your account and viewing the " ++ sq ++ "Orders" ++ sq ++ " or " ++ sq ++ "Requests" ++ sq ++ " section in your dashboard."),
    ("What payment methods do you accept?",
     "We accept major credit and debit cards, bank transfers, PayPal, and supported digital wallets depending on your region."),
    ("Can I modify or cancel my order?",
     "Yes, you can modify or cancel your order within a limited time window from your account dashboard. If the option is unavailable, please contact support for assistance."),
    ("Do you offer refunds?",
     "Refunds are available based on our refund policy. If eligible, you can submit a refund request through your account or by contacting customer support."),
    ("How can I update my profile or account information?",
     "You can update your personal details by going to the " ++ sq ++ "Account Settings" ++ sq ++ " section after logging into your account."),
    ("Is my personal information secure?",
     "Yes, we use industry-standard encryption and security practices to ensure that your data is protected at all times."),
    ("Do you provide support for technical issues?",
     "Yes, our technical support team can help with troubleshooting, installation guidance, configuration issues, and general product assistance."),
    ("Where can I find tutorials or documentation?",
     "All guides, tutorials, and product documentation are available in the " ++ sq ++ "Help Center" ++ sq ++ " section of our website.") ]

/-- Association-list lookup modelling the bracket lookup on the answer-map
object; none models undefined. -/
def lookupStr : List (String × String) → String → Option String
  | [], _ => none
  | (k, v) :: rest, key => if k = key then some v else lookupStr rest key

/-- Translation of the FAQ_ANSWER_MAP reduce (src/server.js lines
137-141): keys are the trimmed, lowercased questions; empty keys are
skipped. -/
def FAQ_ANSWER_MAP : List (String × String) :=
  FAQ_PREDEFINED.foldl
    (fun acc item =>
      let key := jsToLower (jsTrim item.1)
      if key = "" then acc else acc ++ [(key, item.2)]) []

/-- One element of a fulfillmentMessages array: a text message or a
rich-content chips payload (buildChipsPayload, src/server.js lines
278-289), each chip carrying its label and optional image url. -/
inductive RichMessage where
  | text (s : String)
  | chips (options : List (String × Option String))
deriving DecidableEq

/-- The JSON reply payload of the webhook: either a bare fulfillmentText
or a fulfillmentMessages array. -/
inductive Fulfillment where
  | fulfillmentText (s : String)
  | fulfillmentMessages (msgs : List RichMessage)
deriving DecidableEq

/-- Translation of buildMissingFieldsResponse (src/server.js lines
291-298). -/
def buildMissingFieldsResponse (missing : List String) : Fulfillment :=
  .fulfillmentMessages
    [.text ("I still need your " ++ String.intercalate " and " missing ++
      ". Please provide the remaining detail(s) so I can log your request.")]

/-- Chip image urls (CHIP_IMAGES, src/server.js lines 63-68). -/
def chipImageSupport : String := "https://www.svgrepo.com/show/485554/customer-support.svg"

/-- Chip image url for the FAQ chip. -/
def chipImageFaq : String := "https://www.svgrepo.com/show/488191/faq.svg"

/-- Chip image url for the Feedback chip. -/
def chipImageFeedback : String := "https://www.svgrepo.com/show/339196/feedback-02.svg"

/-- The two in-memory pending-session registries faqPendingSessions and
feedbackPendingSessions (src/server.js lines 70-71), modelled as
duplicate-free lists of session ids. -/
structure SessionState where
  faqPending : List String
  feedbackPending : List String
deriving DecidableEq

/-- Model of Set.prototype.add on the session registries. -/
def setAdd (l : List String) (x : String) : List String :=
  if l.contains x then l else l ++ [x]

/-- Model of Set.prototype.delete on the session registries. -/
def setDelete (l : List String) (x : String) : List String :=
  l.filter (fun y => y != x)

/-- One inbound POST /dialogflow request, after the header destructuring
of src/server.js lines 305-310: parameters is the raw
body.queryResult.parameters value before the default to an empty object,
sessionId the first truthy of session, sessionId and responseId, channel
the source with its dialogflow default, queryText already defaulted to the
empty string, and intentConfidence present exactly when the payload field
has number type. -/
structure WebhookRequest where
  detectedIntent : String
  parameters : JsVal
  sessionId : String
  channel : String
  queryText : String
  intentConfidence : Option ℚ

/-- Result of handling one request: the JSON reply, the records passed to
the three persistence-gateway save functions in call order, the prompts
passed to the generative fallback, and the new pending-session state. -/
structure HandlerResult where
  response : Fulfillment
  conversations : List (List (String × JsVal))
  faqRecords : List (List (String × JsVal))
  feedbackRecords : List (List (String × JsVal))
  geminiPrompts : List String
  state : SessionState

/-- JavaScript truthiness of a null-or-string value, as in the guards on
userName, userEmail and userMessage. -/
def optTruthy : Option String → Bool
  | none => false
  | some s => if s = "" then false else true

/-- JavaScript disjunction of a null-or-string value with a string
default. -/
def jsOrStr (o : Option String) (d : String) : String :=
  match o with
  | none => d
  | some s => if s = "" then d else s

/-- Template-literal interpolation of a null-or-string value. -/
def interp : Option String → String
  | none => "null"
  | some s => s

/-- Record field for a null-or-string value. -/
def optVal : Option String → JsVal
  | none => .null
  | some s => .str s

/-- Record field for a null-or-number rating value. -/
def ratingVal : Option JsNumber → JsVal
  | none => .null
  | some x => .num x

/-- Record field for the intent confidence: undefined when the payload
carried none. -/
def confVal : Option ℚ → JsVal
  | none => .undefined
  | some q => .num (.finite q)

/-- Translation of chipIntentMap (src/server.js lines 314-321) as a
lookup on the normalized query text. -/
def chipIntentMap (normalizedQuery : String) : Option String :=
  if normalizedQuery = "customer support" then some "Customer Support"
  else if normalizedQuery = "customer support help" then some "Customer Support"
  else if normalizedQuery = "faq" then some "FAQ"
  else if normalizedQuery = "frequently asked questions" then some "FAQ"
  else if normalizedQuery = "feedback" then some "Feedback"
  else if normalizedQuery = "leave feedback" then some "Feedback"
  else none

/-- The intent resolver at the top of the POST /dialogflow handler
(src/server.js lines 323-342): start from the NLU-reported intent,
override by a matching quick-reply chip label, then force FAQ when the
session is pending FAQ and the intent is not FAQ, else force Feedback when
the session is pending Feedback and the intent is not Feedback. -/
def resolveIntent (detectedIntent queryText : String)
    (hasPendingFaq hasPendingFeedback : Bool) : String :=
  let afterChip :=
    match chipIntentMap (jsToLower (jsTrim queryText)) with
    | some chipIntent => chipIntent
    | none => detectedIntent
  if hasPendingFaq = true ∧ afterChip ≠ "FAQ" then "FAQ"
  else if hasPendingFeedback = true ∧ afterChip ≠ "Feedback" then "Feedback"
  else afterChip

/-- The FAQ chip-click test (src/server.js lines 443-446). -/
def isFaqChipClick (queryText : String) : Bool :=
  jsToLower (jsTrim queryText) == "faq" ||
    jsToLower (jsTrim queryText) == "frequently asked questions"

/-- The Feedback chip-click test (src/server.js lines 541-544). -/
def isFeedbackChipClick (queryText : String) : Bool :=
  jsToLower (jsTrim queryText) == "feedback" ||
    jsToLower (jsTrim queryText) == "leave feedback"

/-- The templated Gemini prompt of the FAQ answering step (src/server.js
line 497). -/
def faqGeminiPrompt (faqQuestion : String) : String :=
  "The user is asking an FAQ about our products or services.\n\nQuestion: \"" ++
    faqQuestion ++ "\"\n\nProvide a clear, concise answer in simple language."

/-- Prompt text of the FAQ chip-click step (src/server.js line 450). -/
def faqPromptText : String :=
  "Here are some frequently asked questions. You can tap one of them or type your own question."

/-- Prompt text of the Feedback chip-click step (src/server.js line 548). -/
def feedbackPromptText : String :=
  "Please type your feedback and I will share it with our team."

/-- Fixed thank-you text of the Feedback answering step (src/server.js
line 579). -/
def feedbackThanksText : String :=
  "Thanks for your feedback. It really helps us improve our service."

/-- The Welcome reply payload (src/server.js lines 347-379). -/
def welcomeResponse : Fulfillment :=
  .fulfillmentMessages
    [ .text "Welcome to Our Virtual Assistant. How can I help you today?",
      .text "Please select a category below to continue:",
      .chips [("Customer Support", some chipImageSupport), ("FAQ", some chipImageFaq),
              ("Feedback", some chipImageFeedback)] ]

/-- The Default Welcome Intent branch (src/server.js lines 344-380). -/
def handleWelcome (st : SessionState) : HandlerResult :=
  ⟨welcomeResponse, [], [], [], [], st⟩

/-- The Customer Support branch (src/server.js lines 381-439): low
confidence delegates to the generative fallback and records the turn;
otherwise the name, email and message slots are required, missing ones are
re-prompted without persistence or state change, and a complete triple is
persisted with a confirmation reply. -/
def handleCustomerSupport (oracle : String → String) (threshold : ℚ) (st : SessionState)
    (req : WebhookRequest) (intentName : String) : HandlerResult :=
  let parameters := jsOr req.parameters (JsVal.obj [])
  let lowConfidence :=
    match req.intentConfidence with
    | some c => if c < threshold then true else false
    | none => false
  if lowConfidence = true then
    let prompt := if req.queryText = "" then "Hello" else req.queryText
    let fallbackText := oracle prompt
    ⟨.fulfillmentText fallbackText,
      [[("session_id", .str req.sessionId), ("intent_name", .str intentName),
        ("user_message", .str req.queryText), ("channel", .str req.channel),
        ("response_text", .str fallbackText), ("intent_confidence", confVal req.intentConfidence),
        ("used_gemini", .bool true), ("fallback_reason", .str "low_confidence")]],
      [], [], [prompt], st⟩
  else
    let userName := normalizeString (parameters.get "name")
    let userEmail := normalizeString (parameters.get "email")
    let userMessage := normalizeString (jsOr (parameters.get "message") (.str req.queryText))
    let missingFields :=
      (if optTruthy userName = false then ["name"] else []) ++
      (if optTruthy userEmail = false then ["email"] else []) ++
      (if optTruthy userMessage = false then ["message"] else [])
    if 0 < missingFields.length then
      ⟨buildMissingFieldsResponse missingFields, [], [], [], [], st⟩
    else
      let replyText := "Thanks " ++ interp userName ++
        "! I have logged your request and our team will reach out at " ++ interp userEmail ++
        " very soon."
      ⟨.fulfillmentMessages [.text replyText],
        [[("session_id", .str req.sessionId), ("intent_name", .str intentName),
          ("user_name", optVal userName), ("user_email", optVal userEmail),
          ("user_message", optVal userMessage), ("channel", .str req.channel),
          ("response_text", .str replyText), ("intent_confidence", confVal req.intentConfidence),
          ("used_gemini", .bool false), ("record_type", .str "support")]],
        [], [], [], st⟩

/-- The FAQ branch (src/server.js lines 440-537): a chip click marks the
session pending, records a faq_start turn and lists all predefined
questions; otherwise the question is answered from the predefined map or
by the generative fallback, the pending mark is cleared and both a
conversation and an FAQ record are persisted. -/
def handleFAQ (oracle : String → String) (st : SessionState) (req : WebhookRequest)
    (intentName : String) : HandlerResult :=
  let parameters := jsOr req.parameters (JsVal.obj [])
  if isFaqChipClick req.queryText = true then
    ⟨.fulfillmentMessages
        [.text faqPromptText, .chips (FAQ_PREDEFINED.map (fun item => (item.1, none)))],
      [[("session_id", .str req.sessionId), ("intent_name", .str intentName),
        ("user_message", .str req.queryText), ("channel", .str req.channel),
        ("response_text", .str faqPromptText), ("record_type", .str "faq_start"),
        ("intent_confidence", confVal req.intentConfidence), ("used_gemini", .bool false)]],
      [], [], [], ⟨setAdd st.faqPending req.sessionId, st.feedbackPending⟩⟩
  else
    let userName := extractName parameters
    let userEmail := extractEmail parameters
    let faqQuestion := jsOrStr (extractFaqTopic parameters req.queryText) req.queryText
    let predefinedAnswer := lookupStr FAQ_ANSWER_MAP (jsToLower (jsTrim faqQuestion))
    let answered :=
      if optTruthy predefinedAnswer = true then
        (jsOrStr predefinedAnswer "", false, ([] : List String))
      else
        let prompt := faqGeminiPrompt faqQuestion
        (oracle prompt, true, [prompt])
    ⟨.fulfillmentMessages [.text answered.1],
      [[("session_id", .str req.sessionId), ("intent_name", .str intentName),
        ("user_name", optVal userName), ("user_email", optVal userEmail),
        ("user_message", .str faqQuestion), ("channel", .str req.channel),
        ("response_text", .str answered.1), ("record_type", .str "faq"),
        ("intent_confidence", confVal req.intentConfidence), ("used_gemini", .bool answered.2.1)]],
      [[("session_id", .str req.sessionId), ("user_name", optVal userName),
        ("user_email", optVal userEmail), ("question_text", .str faqQuestion),
        ("answer_text", .str answered.1), ("channel", .str req.channel),
        ("intent_name", .str intentName), ("intent_confidence", confVal req.intentConfidence),
        ("used_gemini", .bool answered.2.1)]],
      [], answered.2.2, ⟨setDelete st.faqPending req.sessionId, st.feedbackPending⟩⟩

/-- The Feedback branch (src/server.js lines 538-617): a chip click marks
the session pending and records a feedback_start turn; otherwise the
feedback is extracted, the pending mark cleared, a conversation and a
feedback record persisted and the fixed thank-you text returned. -/
def handleFeedback (oracle : String → String) (st : SessionState) (req : WebhookRequest)
    (intentName : String) : HandlerResult :=
  let parameters := jsOr req.parameters (JsVal.obj [])
  let _ := oracle
  if isFeedbackChipClick req.queryText = true then
    ⟨.fulfillmentMessages [.text feedbackPromptText],
      [[("session_id", .str req.sessionId), ("intent_name", .str intentName),
        ("user_message", .str req.queryText), ("channel", .str req.channel),
        ("response_text", .str feedbackPromptText), ("record_type", .str "feedback_start"),
        ("intent_confidence", confVal req.intentConfidence), ("used_gemini", .bool false)]],
      [], [], [], ⟨st.faqPending, setAdd st.feedbackPending req.sessionId⟩⟩
  else
    let userName := extractName parameters
    let userEmail := extractEmail parameters
    let feedbackText := extractUserMessage parameters req.queryText
    let feedbackRating := extractRating parameters
    ⟨.fulfillmentMessages [.text feedbackThanksText],
      [[("session_id", .str req.sessionId), ("intent_name", .str intentName),
        ("user_name", optVal userName), ("user_email", optVal userEmail),
        ("user_message", optVal feedbackText), ("channel", .str req.channel),
        ("response_text", .str feedbackThanksText), ("feedback_rating", ratingVal feedbackRating),
        ("record_type", .str "feedback"), ("intent_confidence", confVal req.intentConfidence),
        ("used_gemini", .bool false)]],
      [],
      [[("session_id", .str req.sessionId), ("user_name", optVal userName),
        ("user_email", optVal userEmail), ("feedback_text", optVal feedbackText),
        ("feedback_rating", ratingVal feedbackRating), ("channel", .str req.channel),
        ("intent_name", .str intentName), ("intent_confidence", confVal req.intentConfidence),
        ("used_gemini", .bool false)]],
      [], ⟨st.faqPending, setDelete st.feedbackPending req.sessionId⟩⟩

/-- The final unrecognized-intent branch (src/server.js lines 618-745),
with its defensive duplicated FAQ and Feedback follow-up handling guarded
by the pending sets, and the generic generative fallback otherwise. -/
def handleUnrecognized (oracle : String → String) (st : SessionState) (req : WebhookRequest)
    (intentName : String) : HandlerResult :=
  let parameters := jsOr req.parameters (JsVal.obj [])
  if st.faqPending.contains req.sessionId = true then
    let faqQuestion := req.queryText
    let predefinedAnswer := lookupStr FAQ_ANSWER_MAP (jsToLower (jsTrim faqQuestion))
    let answered :=
      if optTruthy predefinedAnswer = true then
        (jsOrStr predefinedAnswer "", false, ([] : List String))
      else
        let prompt := faqGeminiPrompt faqQuestion
        (oracle prompt, true, [prompt])
    ⟨.fulfillmentMessages [.text answered.1],
      [[("session_id", .str req.sessionId), ("intent_name", .str "FAQ"),
        ("user_name", optVal (extractName parameters)),
        ("user_email", optVal (extractEmail parameters)),
        ("user_message", .str faqQuestion), ("channel", .str req.channel),
        ("response_text", .str answered.1), ("record_type", .str "faq"),
        ("intent_confidence", confVal req.intentConfidence), ("used_gemini", .bool answered.2.1),
        ("fallback_reason",
          .str (if answered.2.1 = true then "faq_followup" else "faq_followup_predefined"))]],
      [[("session_id", .str req.sessionId), ("user_name", optVal (extractName parameters)),
        ("user_email", optVal (extractEmail parameters)), ("question_text", .str faqQuestion),
        ("answer_text", .str answered.1), ("channel", .str req.channel),
        ("intent_name", .str "FAQ"), ("intent_confidence", confVal req.intentConfidence),
        ("used_gemini", .bool answered.2.1)]],
      [], answered.2.2, ⟨setDelete st.faqPending req.sessionId, st.feedbackPending⟩⟩
  else if st.feedbackPending.contains req.sessionId = true then
    let userName := extractName parameters
    let userEmail := extractEmail parameters
    let feedbackText := extractUserMessage parameters req.queryText
    let feedbackRating := extractRating parameters
    ⟨.fulfillmentMessages [.text feedbackThanksText],
      [[("session_id", .str req.sessionId), ("intent_name", .str "Feedback"),
        ("user_name", optVal userName), ("user_email", optVal userEmail),
        ("user_message", optVal feedbackText), ("channel", .str req.channel),
        ("response_text", .str feedbackThanksText), ("feedback_rating", ratingVal feedbackRating),
        ("record_type", .str "feedback"), ("intent_confidence", confVal req.intentConfidence),
        ("used_gemini", .bool false), ("fallback_reason", .str "feedback_followup")]],
      [],
      [[("session_id", .str req.sessionId), ("user_name", optVal userName),
        ("user_email", optVal userEmail), ("feedback_text", optVal feedbackText),
        ("feedback_rating", ratingVal feedbackRating), ("channel", .str req.channel),
        ("intent_name", .str "Feedback"), ("intent_confidence", confVal req.intentConfidence),
        ("used_gemini", .bool false)]],
      [], ⟨st.faqPending, setDelete st.feedbackPending req.sessionId⟩⟩
  else
    let prompt := if req.queryText = "" then "Hello" else req.queryText
    let fallbackText := oracle prompt
    ⟨.fulfillmentText fallbackText,
      [[("session_id", .str req.sessionId), ("intent_name", .str intentName),
        ("user_message", .str req.queryText), ("channel", .str req.channel),
        ("response_text", .str fallbackText), ("intent_confidence", confVal req.intentConfidence),
        ("used_gemini", .bool true), ("fallback_reason", .str "unknown_intent")]],
      [], [], [prompt], st⟩

/-- Dispatch on the resolved intent name (the if-else chain of
src/server.js lines 344, 381, 440, 538, 618). -/
def dispatchIntent (oracle : String → String) (threshold : ℚ) (st : SessionState)
    (req : WebhookRequest) (intentName : String) : HandlerResult :=
  if intentName = "Default Welcome Intent" then handleWelcome st
  else if intentName = "Customer Support" then
    handleCustomerSupport oracle threshold st req intentName
  else if intentName = "FAQ" then handleFAQ oracle st req intentName
  else if intentName = "Feedback" then handleFeedback oracle st req intentName
  else handleUnrecognized oracle st req intentName

/-- The whole POST /dialogflow handler as a pure state transformer: the
oracle abstracts the awaited generateFallbackResponse collaborator and
threshold the configured fallback confidence threshold (default 0.6). -/
def handlePost (oracle : String → String) (threshold : ℚ) (st : SessionState)
    (req : WebhookRequest) : HandlerResult :=
  dispatchIntent oracle threshold st req
    (resolveIntent req.detectedIntent req.queryText
      (st.faqPending.contains req.sessionId) (st.feedbackPending.contains req.sessionId))

/-- Mutual-exclusion invariant of the two pending-session registries: no
session id marked pending FAQ is also marked pending Feedback. -/
def SessionInv (st : SessionState) : Prop :=
  ∀ s ∈ st.faqPending, st.feedbackPending.contains s = false

/-- Pending-session states reachable from the empty initial state by a
sequence of handled webhook requests. -/
inductive Reachable : SessionState → Prop
  | init : Reachable ⟨[], []⟩
  | step (oracle : String → String) (threshold : ℚ) (req : WebhookRequest) (st : SessionState) :
      Reachable st → Reachable (handlePost oracle threshold st req).state

/-- A slot value that is absent in the sense of the specification wording,
i.e. undefined or null. -/
def JsVal.isAbsent : JsVal → Bool
  | .undefined => true
  | .null => true
  | _ => false

/-- Name extraction as worded by the specification claim: the normalized
value of the first present source in the precedence chain name,
person.name, person.original, given-name, and null when all four are
absent or blank.  This definition follows the wording of the claim and is
compared against the translation extractName of the code. -/
def extractNameSpec (parameters : JsVal) : Option String :=
  match [parameters.get "name", (parameters.get "person").get "name",
      (parameters.get "person").get "original", parameters.get "given-name"].find?
      (fun v => !v.isAbsent) with
  | some v => normalizeString v
  | none => none

/-- Rating extraction as worded by the specification claim: the first
present source among rating, score, feedback-rating, with numeric
coercion, and null for invalid or absent values.  This definition follows
the wording of the claim and is compared against the translation
extractRating of the code. -/
def extractRatingSpec (parameters : JsVal) : Option JsNumber :=
  match [parameters.get "rating", parameters.get "score",
      parameters.get "feedback-rating"].find? (fun v => !v.isAbsent) with
  | none => none
  | some (.num x) => some x
  | some v =>
    match normalizeString v with
    | none => none
    | some s =>
      match jsParseFloat s with
      | .nan => none
      | x => some x

/-! Helper lemmas. -/

theorem trimRightChars_eq_rdropWhile (cs : List Char) :
    trimRightChars cs = cs.rdropWhile isJsWhitespace := rfl

theorem dropWhile_rdropWhile_dropWhile (p : Char → Bool) (l : List Char) :
    List.dropWhile p (List.rdropWhile p (List.dropWhile p l)) =
      List.rdropWhile p (List.dropWhile p l) := by
  obtain ⟨t, ht⟩ := List.rdropWhile_prefix p (List.dropWhile p l)
  cases hm : List.rdropWhile p (List.dropWhile p l) with
  | nil => simp
  | cons a rest =>
    have hdl : List.dropWhile p l = a :: (rest ++ t) := by
      rw [← ht, hm]
      rfl
    have hpa : p a = false := by
      by_contra hpa'
      rw [Bool.not_eq_false] at hpa'
      have hfix := List.dropWhile_idempotent p l
      rw [hdl, List.dropWhile_cons, if_pos hpa'] at hfix
      have hlen := congrArg List.length hfix
      have hle : (List.dropWhile p (rest ++ t)).length ≤ (rest ++ t).length :=
        List.IsSuffix.length_le (List.dropWhile_suffix p)
      simp only [List.length_cons] at hlen
      omega
    rw [List.dropWhile_cons, if_neg (by simp [hpa])]

/-- Trimming is idempotent. -/
theorem jsTrim_jsTrim (s : String) : jsTrim (jsTrim s) = jsTrim s := by
  show (⟨trimRightChars (trimLeftChars (trimRightChars (trimLeftChars s.data)))⟩ : String) = _
  unfold trimLeftChars
  rw [trimRightChars_eq_rdropWhile, trimRightChars_eq_rdropWhile,
    dropWhile_rdropWhile_dropWhile, List.rdropWhile_idempotent]
  rfl

/-- Every string returned by normalizeString is trimmed. -/
theorem normalizeString_trimmed (v : JsVal) (t : String) (h : normalizeString v = some t) :
    jsTrim t = t := by
  unfold normalizeString at h
  split at h
  · exact absurd h (by simp)
  · cases v with
    | str s =>
      simp only at h
      split at h
      · exact absurd h (by simp)
      · rw [Option.some_inj] at h
        rw [← h, jsTrim_jsTrim]
    | obj fields =>
      simp only at h
      split at h
      · rw [Option.some_inj] at h
        rw [← h, jsTrim_jsTrim]
      · split at h
        · rw [Option.some_inj] at h
          rw [← h, jsTrim_jsTrim]
        · split at h
          · rw [Option.some_inj] at h
            rw [← h, jsTrim_jsTrim]
          · exact absurd h (by simp)
    | undefined => exact absurd h (by simp)
    | null => exact absurd h (by simp)
    | bool b => exact absurd h (by simp)
    | num q => exact absurd h (by simp)

theorem contains_iff_mem (l : List String) (x : String) : l.contains x = true ↔ x ∈ l :=
  List.elem_iff

theorem mem_setAdd (l : List String) (x s : String) :
    s ∈ setAdd l x ↔ s ∈ l ∨ s = x := by
  unfold setAdd
  split
  · rename_i h
    rw [contains_iff_mem] at h
    constructor
    · exact Or.inl
    · rintro (hs | rfl)
      · exact hs
      · exact h
  · simp [List.mem_append]

theorem mem_setDelete (l : List String) (x s : String) :
    s ∈ setDelete l x ↔ s ∈ l ∧ s ≠ x := by
  unfold setDelete
  rw [List.mem_filter]
  simp [bne_iff_ne]

theorem contains_setDelete_self (l : List String) (x : String) :
    (setDelete l x).contains x = false := by
  rw [← Bool.not_eq_true, contains_iff_mem, mem_setDelete]
  simp

theorem contains_setDelete_of_not (l : List String) (x s : String)
    (h : l.contains s = false) : (setDelete l x).contains s = false := by
  rw [← Bool.not_eq_true, contains_iff_mem, mem_setDelete]
  rw [← Bool.not_eq_true, contains_iff_mem] at h
  tauto

theorem contains_setAdd_of_not (l : List String) (x s : String)
    (h : l.contains s = false) (hne : s ≠ x) : (setAdd l x).contains s = false := by
  rw [← Bool.not_eq_true, contains_iff_mem, mem_setAdd]
  rw [← Bool.not_eq_true, contains_iff_mem] at h
  tauto

/-- A session pending FAQ and not pending Feedback always resolves to
FAQ. -/
theorem resolveIntent_faq (detected query : String) :
    resolveIntent detected query true false = "FAQ" := by
  unfold resolveIntent
  by_cases h :
      (match chipIntentMap (jsToLower (jsTrim query)) with
        | some chipIntent => chipIntent
        | none => detected) = "FAQ"
  · simp [h]
  · simp [h]

/-- A session pending Feedback and not pending FAQ always resolves to
Feedback. -/
theorem resolveIntent_feedback (detected query : String) :
    resolveIntent detected query false true = "Feedback" := by
  unfold resolveIntent
  by_cases h :
      (match chipIntentMap (jsToLower (jsTrim query)) with
        | some chipIntent => chipIntent
        | none => detected) = "Feedback"
  · simp [h]
  · simp [h]

/-- A session pending FAQ resolves to FAQ or Feedback whatever the other
registry holds. -/
theorem resolveIntent_faq_or_feedback (detected query : String) (fb : Bool) :
    resolveIntent detected query true fb = "FAQ" ∨
      resolveIntent detected query true fb = "Feedback" := by
  unfold resolveIntent
  by_cases h :
      (match chipIntentMap (jsToLower (jsTrim query)) with
        | some chipIntent => chipIntent
        | none => detected) = "FAQ"
  · cases fb with
    | true => right; simp [h]
    | false => left; simp [h]
  · left; simp [h]

theorem handleWelcome_state (st : SessionState) : (handleWelcome st).state = st := rfl

theorem handleCustomerSupport_state (oracle : String → String) (threshold : ℚ)
    (st : SessionState) (req : WebhookRequest) (intentName : String) :
    (handleCustomerSupport oracle threshold st req intentName).state = st := by
  unfold handleCustomerSupport
  cases h : req.intentConfidence <;> simp only [h] <;> split_ifs <;> rfl

theorem handleFAQ_state (oracle : String → String) (st : SessionState)
    (req : WebhookRequest) (intentName : String) :
    (handleFAQ oracle st req intentName).state =
      if isFaqChipClick req.queryText = true
      then ⟨setAdd st.faqPending req.sessionId, st.feedbackPending⟩
      else ⟨setDelete st.faqPending req.sessionId, st.feedbackPending⟩ := by
  unfold handleFAQ
  split_ifs <;> rfl

theorem handleFeedback_state (oracle : String → String) (st : SessionState)
    (req : WebhookRequest) (intentName : String) :
    (handleFeedback oracle st req intentName).state =
      if isFeedbackChipClick req.queryText = true
      then ⟨st.faqPending, setAdd st.feedbackPending req.sessionId⟩
      else ⟨st.faqPending, setDelete st.feedbackPending req.sessionId⟩ := by
  unfold handleFeedback
  split_ifs <;> rfl

theorem handleUnrecognized_state (oracle : String → String) (st : SessionState)
    (req : WebhookRequest) (intentName : String) :
    (handleUnrecognized oracle st req intentName).state =
      if st.faqPending.contains req.sessionId = true
      then ⟨setDelete st.faqPending req.sessionId, st.feedbackPending⟩
      else if st.feedbackPending.contains req.sessionId = true
      then ⟨st.faqPending, setDelete st.feedbackPending req.sessionId⟩
      else st := by
  unfold handleUnrecognized
  split_ifs <;> rfl

/-- One handled webhook request preserves the mutual-exclusion invariant
of the pending-session registries. -/
theorem sessionInv_handlePost (oracle : String → String) (threshold : ℚ)
    (st : SessionState) (req : WebhookRequest) (hinv : SessionInv st) :
    SessionInv (handlePost oracle threshold st req).state := by
  unfold handlePost dispatchIntent
  set r := resolveIntent req.detectedIntent req.queryText
      (st.faqPending.contains req.sessionId) (st.feedbackPending.contains req.sessionId) with hr
  split_ifs with h1 h2 h3 h4
  · rw [handleWelcome_state]
    exact hinv
  · rw [handleCustomerSupport_state]
    exact hinv
  · have hfb : st.feedbackPending.contains req.sessionId = false := by
      by_contra hfb'
      rw [Bool.not_eq_false] at hfb'
      have hfaqc : st.faqPending.contains req.sessionId = false := by
        by_contra hf'
        rw [Bool.not_eq_false] at hf'
        have hmem : req.sessionId ∈ st.faqPending := (contains_iff_mem _ _).mp hf'
        have := hinv _ hmem
        rw [this] at hfb'
        exact Bool.noConfusion hfb'
      have hrf : r = "Feedback" := by
        rw [hr, hfaqc, hfb']
        exact resolveIntent_feedback _ _
      rw [h3] at hrf
      simp at hrf
    rw [handleFAQ_state]
    split_ifs
    · intro s hs
      have hs' : s ∈ setAdd st.faqPending req.sessionId := hs
      rw [mem_setAdd] at hs'
      show st.feedbackPending.contains s = false
      rcases hs' with hmem | rfl
      · exact hinv _ hmem
      · exact hfb
    · intro s hs
      have hs' : s ∈ setDelete st.faqPending req.sessionId := hs
      rw [mem_setDelete] at hs'
      show st.feedbackPending.contains s = false
      exact hinv _ hs'.1
  · have hfaq : st.faqPending.contains req.sessionId = false := by
      by_contra hf'
      rw [Bool.not_eq_false] at hf'
      have hmem : req.sessionId ∈ st.faqPending := (contains_iff_mem _ _).mp hf'
      have hfb := hinv _ hmem
      have hrf : r = "FAQ" := by
        rw [hr, hf', hfb]
        exact resolveIntent_faq _ _
      rw [h4] at hrf
      simp at hrf
    rw [handleFeedback_state]
    split_ifs
    · intro s hs
      have hs' : s ∈ st.faqPending := hs
      show (setAdd st.feedbackPending req.sessionId).contains s = false
      refine contains_setAdd_of_not _ _ _ (hinv _ hs') ?_
      rintro rfl
      rw [(contains_iff_mem _ _).mpr hs'] at hfaq
      simp at hfaq
    · intro s hs
      have hs' : s ∈ st.faqPending := hs
      show (setDelete st.feedbackPending req.sessionId).contains s = false
      exact contains_setDelete_of_not _ _ _ (hinv _ hs')
  · rw [handleUnrecognized_state]
    split_ifs
    · intro s hs
      have hs' : s ∈ setDelete st.faqPending req.sessionId := hs
      rw [mem_setDelete] at hs'
      show st.feedbackPending.contains s = false
      exact hinv _ hs'.1
    · intro s hs
      have hs' : s ∈ st.faqPending := hs
      show (setDelete st.feedbackPending req.sessionId).contains s = false
      exact contains_setDelete_of_not _ _ _ (hinv _ hs')
    · exact hinv

/-- Every reachable pending-session state satisfies the mutual-exclusion
invariant. -/
theorem reachable_sessionInv (st : SessionState) (h : Reachable st) : SessionInv st := by
  induction h with
  | init =>
    intro s hs
    simp at hs
  | step oracle threshold req st' hst ih => exact sessionInv_handlePost oracle threshold st' req ih

/-- The state with session s1 pending FAQ is reachable: from the empty
state, a webhook turn whose query text is the faq chip label marks s1
pending. -/
theorem reachable_faq_s1 : Reachable ⟨["s1"], []⟩ := by
  have h : (handlePost (fun _ => "ok") (3 / 5) ⟨[], []⟩
      ⟨"FAQ", JsVal.obj [], "s1", "web", "faq", none⟩).state = ⟨["s1"], []⟩ := by decide
  rw [← h]
  exact Reachable.step _ _ _ _ Reachable.init

/-- The state with session s2 pending Feedback is reachable: from the
empty state, a webhook turn whose query text is the feedback chip label
marks s2 pending. -/
theorem reachable_feedback_s2 : Reachable ⟨[], ["s2"]⟩ := by
  have h : (handlePost (fun _ => "ok") (3 / 5) ⟨[], []⟩
      ⟨"Feedback", JsVal.obj [], "s2", "web", "feedback", none⟩).state = ⟨[], ["s2"]⟩ := by decide
  rw [← h]
  exact Reachable.step _ _ _ _ Reachable.init

/-- C1: for every session of a (reachable) program state that is in the
FAQ-pending set, the intent resolved for any subsequent turn of that
session is FAQ, regardless of the NLU-reported intent and of any
quick-reply chip override; and for every session in the Feedback-pending
set and not in the FAQ-pending set, the resolved intent is Feedback. -/
theorem pending_session_forces_intent (st : SessionState) (hreach : Reachable st)
    (sid detected query : String) :
    (st.faqPending.contains sid = true →
      resolveIntent detected query (st.faqPending.contains sid)
        (st.feedbackPending.contains sid) = "FAQ") ∧
    (st.feedbackPending.contains sid = true → st.faqPending.contains sid = false →
      resolveIntent detected query (st.faqPending.contains sid)
        (st.feedbackPending.contains sid) = "Feedback") := by
  constructor
  · intro hfaq
    have hfb : st.feedbackPending.contains sid = false :=
      reachable_sessionInv st hreach _ ((contains_iff_mem _ _).mp hfaq)
    rw [hfaq, hfb]
    exact resolveIntent_faq _ _
  · intro hfb hfaq
    rw [hfaq, hfb]
    exact resolveIntent_feedback _ _

/-- Witness for C1 at two concrete reachable states: a pending-FAQ session
resolves to FAQ even when the NLU reports Feedback, and a pending-Feedback
session resolves to Feedback even when the NLU reports FAQ. -/
theorem pending_session_forces_intent_witness :
    resolveIntent "Feedback" "I forgot my password" true false = "FAQ" ∧
    resolveIntent "FAQ" "great service" false true = "Feedback" :=
  ⟨(pending_session_forces_intent ⟨["s1"], []⟩ reachable_faq_s1 "s1" "Feedback"
      "I forgot my password").1 rfl,
   (pending_session_forces_intent ⟨[], ["s2"]⟩ reachable_feedback_s2 "s2" "FAQ"
      "great service").2 rfl rfl⟩

/-- C2: starting from the empty pending sets, every handled webhook
request preserves the invariant that no session id is a member of both the
FAQ-pending set and the Feedback-pending set. -/
theorem pending_sets_mutually_exclusive :
    SessionInv ⟨[], []⟩ ∧
    ∀ (oracle : String → String) (threshold : ℚ) (st : SessionState) (req : WebhookRequest),
      SessionInv st → SessionInv (handlePost oracle threshold st req).state := by
  constructor
  · intro s hs
    simp at hs
  · exact sessionInv_handlePost

/-- Witness for C2: one concrete handled request starting from the empty
state keeps the two pending sets disjoint. -/
theorem pending_sets_mutually_exclusive_witness :
    SessionInv (handlePost (fun _ => "ok") (3 / 5) ⟨[], []⟩
      ⟨"FAQ", JsVal.obj [], "s1", "web", "faq", none⟩).state :=
  pending_sets_mutually_exclusive.2 _ _ _ _ pending_sets_mutually_exclusive.1

/-- C3 counterexample: at the slot mapping with person bound to the empty
object and given-name bound to Bob, the code returns null although the
chain claimed by the specification reaches the present given-name source
and returns Bob: the person value itself short-circuits the disjunction
chain before the given-name fallback is consulted. -/
theorem extractName_chain_counterexample :
    extractName (JsVal.obj [("person", JsVal.obj []), ("given-name", JsVal.str "Bob")]) = none ∧
    extractNameSpec (JsVal.obj [("person", JsVal.obj []), ("given-name", JsVal.str "Bob")]) =
      some "Bob" ∧
    extractName (JsVal.obj [("person", JsVal.obj []), ("given-name", JsVal.str "Bob")]) ≠
      extractNameSpec (JsVal.obj [("person", JsVal.obj []), ("given-name", JsVal.str "Bob")]) :=
  ⟨rfl, rfl, by decide⟩

/-- C3 amended: the precedence chain of extractName is name, then the
whole person value (unwrapped by normalizeString through its name,
original and displayName sub-fields), then given-name; a truthy person
value lacking those sub-fields therefore yields null without falling
through to given-name. -/
theorem extractName_chain_amended (parameters : JsVal) :
    extractName parameters =
      normalizeString (jsOr (parameters.get "name")
        (jsOr (parameters.get "person") (parameters.get "given-name"))) := by
  unfold extractName
  split_ifs with h
  · cases parameters with
    | undefined => rfl
    | null => rfl
    | bool b => rfl
    | num q => rfl
    | str s => rfl
    | obj fields => simp [JsVal.truthy] at h
  · have hchain :
        jsOr (parameters.get "name")
          (jsOr (parameters.get "person")
            (jsOr (jsAnd (parameters.get "person") ((parameters.get "person").get "name"))
              (jsOr (jsAnd (parameters.get "person") ((parameters.get "person").get "original"))
                (parameters.get "given-name")))) =
        jsOr (parameters.get "name")
          (jsOr (parameters.get "person") (parameters.get "given-name")) := by
      by_cases hn : (parameters.get "name").truthy = true
      · simp [jsOr, hn]
      · by_cases hp : (parameters.get "person").truthy = true
        · simp [jsOr, hn, hp]
        · simp [jsOr, jsAnd, hn, hp]
    rw [hchain]

/-- C4 counterexample: an object-shaped name slot whose name sub-field is
a blank string is unwrapped and trimmed without the null collapse, so
extractName returns the empty string rather than null. -/
theorem extractor_blank_unwrap_counterexample :
    extractName (JsVal.obj [("name", JsVal.obj [("name", JsVal.str "  ")])]) = some "" :=
  rfl

/-- C4 amended: every string returned by the four extractors is trimmed,
and a string-typed value that is blank after trimming collapses to null;
but a value unwrapped from an object through the name, original or
displayName sub-fields is only trimmed, so an object whose truthy
sub-field trims to empty yields the empty string instead of null. -/
theorem extractors_trimmed_amended :
    (∀ (p : JsVal) (s : String), extractName p = some s → jsTrim s = s) ∧
    (∀ (p : JsVal) (s : String), extractEmail p = some s → jsTrim s = s) ∧
    (∀ (p : JsVal) (f s : String), extractUserMessage p f = some s → jsTrim s = s) ∧
    (∀ (p : JsVal) (f s : String), extractFaqTopic p f = some s → jsTrim s = s) ∧
    (∀ s : String, jsTrim s = "" → normalizeString (JsVal.str s) = none) ∧
    normalizeString (JsVal.obj [("name", JsVal.str "  ")]) = some "" := by
  refine ⟨?_, ?_, ?_, ?_, ?_, rfl⟩
  · intro p s h
    unfold extractName at h
    split_ifs at h
    exact normalizeString_trimmed _ _ h
  · intro p s h
    unfold extractEmail at h
    split_ifs at h
    exact normalizeString_trimmed _ _ h
  · intro p f s h
    unfold extractUserMessage at h
    split_ifs at h
    · exact normalizeString_trimmed _ _ h
    · exact normalizeString_trimmed _ _ h
  · intro p f s h
    unfold extractFaqTopic at h
    split_ifs at h
    · exact normalizeString_trimmed _ _ h
    · exact normalizeString_trimmed _ _ h
  · intro s h
    unfold normalizeString
    by_cases hse : s = ""
    · simp [hse, JsVal.truthy]
    · simp [JsVal.truthy, hse, h]

/-- Witness for C4 at concrete inputs: a name slot trims to a fixed
string, and a blank plain string collapses to null. -/
theorem extractors_trimmed_amended_witness :
    jsTrim "Ali" = "Ali" ∧ normalizeString (JsVal.str "   ") = none :=
  ⟨extractors_trimmed_amended.1 (JsVal.obj [("name", JsVal.str " Ali ")]) "Ali" rfl,
   extractors_trimmed_amended.2.2.2.2.1 "   " rfl⟩

/-- C5 counterexample: a numeric rating slot holding 0 is falsy, so the
truthiness chain of extractRating skips it and the code returns null,
although the claimed behaviour returns the numeric value 0 for a present
numeric rating. -/
theorem extractRating_zero_counterexample :
    extractRating (JsVal.obj [("rating", JsVal.num (JsNumber.finite 0))]) = none ∧
    extractRatingSpec (JsVal.obj [("rating", JsVal.num (JsNumber.finite 0))]) =
      some (JsNumber.finite 0) ∧
    extractRating (JsVal.obj [("rating", JsVal.num (JsNumber.finite 0))]) ≠
      extractRatingSpec (JsVal.obj [("rating", JsVal.num (JsNumber.finite 0))]) :=
  ⟨rfl, rfl, by decide⟩

/-- C5 amended: extractRating takes the first truthy value of the chain
rating, score, feedback-rating, so a present numeric rating equal to 0 is
falsy, is skipped by the chain and, with no later source, yields null;
otherwise an absent chain yields null, a value whose parseFloat coercion
is NaN yields null, and a numeric value is returned (a nonzero number as
is, a numeric string such as 4.5 through parseFloat, the string Infinity
as the infinite parseFloat value). -/
theorem extractRating_amended :
    (∀ q : ℚ, q ≠ 0 →
      extractRating (JsVal.obj [("rating", JsVal.num (JsNumber.finite q))]) =
        some (JsNumber.finite q)) ∧
    extractRating (JsVal.obj [("rating", JsVal.num (JsNumber.finite 0))]) = none ∧
    extractRating (JsVal.obj []) = none ∧
    extractRating (JsVal.obj [("rating", JsVal.str "4.5")]) = some (JsNumber.finite (9 / 2)) ∧
    extractRating (JsVal.obj [("rating", JsVal.str "Infinity")]) = some JsNumber.posInf ∧
    (∀ s : String, jsTrim s = s → jsParseFloat s = JsNumber.nan →
      extractRating (JsVal.obj [("rating", JsVal.str s)]) = none) := by
  refine ⟨?_, ?_, rfl, ?_, rfl, ?_⟩
  · intro q hq
    unfold extractRating
    simp [jsOr, JsVal.truthy, hq,
      show (JsVal.obj [("rating", JsVal.num (JsNumber.finite q))]).get "rating" =
        JsVal.num (JsNumber.finite q) from rfl,
      show (JsVal.obj [("rating", JsVal.num (JsNumber.finite q))]).get "score" =
        JsVal.undefined from rfl,
      show (JsVal.obj [("rating", JsVal.num (JsNumber.finite q))]).get "feedback-rating" =
        JsVal.undefined from rfl]
  · have h : extractRating (JsVal.obj [("rating", JsVal.num (JsNumber.finite 0))]) =
        (if (0 : ℚ) = 0 then none else some (JsNumber.finite 0)) := rfl
    rw [h, if_pos rfl]
  · have h : extractRating (JsVal.obj [("rating", JsVal.str "4.5")]) =
        some (JsNumber.finite ((1 : ℚ) * (((4 : ℕ) : ℚ) + ((5 : ℕ) : ℚ) / (10 : ℚ) ^ (1 : ℕ)) *
          (10 : ℚ) ^ (0 : ℤ))) := rfl
    rw [h]
    refine congrArg (fun q => some (JsNumber.finite q)) ?_
    norm_num
  · intro s hs hp
    by_cases hse : s = ""
    · subst hse
      rfl
    · unfold extractRating
      simp only [show (JsVal.obj [("rating", JsVal.str s)]).get "rating" = JsVal.str s from rfl,
        show (JsVal.obj [("rating", JsVal.str s)]).get "score" = JsVal.undefined from rfl,
        show (JsVal.obj [("rating", JsVal.str s)]).get "feedback-rating" = JsVal.undefined from rfl]
      unfold normalizeString
      simp [jsOr, JsVal.truthy, hse, hs, hp]

/-- Witness for C5 amended at concrete inputs: a nonzero numeric rating is
returned and a non-numeric string rating yields null. -/
theorem extractRating_amended_witness :
    extractRating (JsVal.obj [("rating", JsVal.num (JsNumber.finite 7))]) =
      some (JsNumber.finite 7) ∧
    extractRating (JsVal.obj [("rating", JsVal.str "great")]) = none :=
  ⟨extractRating_amended.1 7 (by norm_num),
   extractRating_amended.2.2.2.2.2 "great" rfl rfl⟩

theorem sanitizeRecord_foldl_aux (record : List (String × JsVal)) :
    ∀ acc : List (String × JsVal),
      record.foldl
        (fun acc kv =>
          match kv.2 with
          | .undefined => acc ++ [(kv.1, JsVal.null)]
          | .str s =>
            if jsTrim s = "" then acc ++ [(kv.1, JsVal.null)] else acc ++ [(kv.1, JsVal.str s)]
          | v => acc ++ [(kv.1, v)]) acc =
      acc ++ record.map (fun kv => (kv.1, sanitizeValue kv.2)) := by
  induction record with
  | nil =>
    intro acc
    simp
  | cons kv rest ih =>
    intro acc
    rw [List.foldl_cons, List.map_cons, ih]
    have hstep :
        (match kv.2 with
          | .undefined => acc ++ [(kv.1, JsVal.null)]
          | .str s =>
            if jsTrim s = "" then acc ++ [(kv.1, JsVal.null)] else acc ++ [(kv.1, JsVal.str s)]
          | v => acc ++ [(kv.1, v)]) = acc ++ [(kv.1, sanitizeValue kv.2)] := by
      cases kv.2 with
      | undefined => rfl
      | null => rfl
      | bool b => rfl
      | num q => rfl
      | obj fields => rfl
      | str s =>
        show (if jsTrim s = "" then acc ++ [(kv.1, JsVal.null)]
            else acc ++ [(kv.1, JsVal.str s)]) =
          acc ++ [(kv.1, if jsTrim s = "" then JsVal.null else JsVal.str s)]
        split_ifs <;> rfl
    rw [hstep]
    simp

/-- The sanitizing fold is the per-field map of sanitizeValue. -/
theorem sanitizeRecord_eq_map (record : List (String × JsVal)) :
    sanitizeRecord record = record.map (fun kv => (kv.1, sanitizeValue kv.2)) := by
  unfold sanitizeRecord
  rw [sanitizeRecord_foldl_aux record []]
  simp

theorem sanitizeValue_idem (v : JsVal) : sanitizeValue (sanitizeValue v) = sanitizeValue v := by
  cases v with
  | undefined => rfl
  | null => rfl
  | bool b => rfl
  | num q => rfl
  | obj fields => rfl
  | str s =>
    show sanitizeValue (if jsTrim s = "" then JsVal.null else JsVal.str s) =
      if jsTrim s = "" then JsVal.null else JsVal.str s
    split_ifs with h
    · rfl
    · show (if jsTrim s = "" then JsVal.null else JsVal.str s) = JsVal.str s
      rw [if_neg h]

/-- C6: sanitization maps each undefined field and each
blank-after-trimming string field to an explicit null and leaves every
other field unchanged; in particular the record a undefined, b blank, c x
persists as a null, b null, c x. -/
theorem sanitizeRecord_fieldwise :
    (∀ record : List (String × JsVal),
      sanitizeRecord record = record.map (fun kv => (kv.1, sanitizeValue kv.2))) ∧
    sanitizeValue JsVal.undefined = JsVal.null ∧
    (∀ s : String, jsTrim s = "" → sanitizeValue (JsVal.str s) = JsVal.null) ∧
    (∀ v : JsVal, v ≠ JsVal.undefined → (∀ s : String, v = JsVal.str s → jsTrim s ≠ "") →
      sanitizeValue v = v) ∧
    sanitizeRecord [("a", JsVal.undefined), ("b", JsVal.str "  "), ("c", JsVal.str "x")] =
      [("a", JsVal.null), ("b", JsVal.null), ("c", JsVal.str "x")] := by
  refine ⟨sanitizeRecord_eq_map, rfl, ?_, ?_, rfl⟩
  · intro s h
    show (if jsTrim s = "" then JsVal.null else JsVal.str s) = JsVal.null
    rw [if_pos h]
  · intro v hu hb
    cases v with
    | undefined => exact absurd rfl hu
    | null => rfl
    | bool b => rfl
    | num q => rfl
    | obj fields => rfl
    | str s =>
      show (if jsTrim s = "" then JsVal.null else JsVal.str s) = JsVal.str s
      rw [if_neg (hb s rfl)]

/-- Witness for C6 at concrete fields: a blank string field becomes null
and a non-blank string field is unchanged. -/
theorem sanitizeRecord_fieldwise_witness :
    sanitizeValue (JsVal.str " ") = JsVal.null ∧
    sanitizeValue (JsVal.str "keep") = JsVal.str "keep" := by
  constructor
  · exact sanitizeRecord_fieldwise.2.2.1 " " rfl
  · refine sanitizeRecord_fieldwise.2.2.2.1 (JsVal.str "keep") (fun h => JsVal.noConfusion h) ?_
    intro s h
    cases h
    decide

/-- C7: the record sanitizer is idempotent: sanitizing twice yields the
same record as sanitizing once. -/
theorem sanitizeRecord_idempotent (record : List (String × JsVal)) :
    sanitizeRecord (sanitizeRecord record) = sanitizeRecord record := by
  rw [sanitizeRecord_eq_map, sanitizeRecord_eq_map, List.map_map]
  simp [Function.comp_def, sanitizeValue_idem]

/-- C10: whenever the session id is in either pending set, the top-level
intent resolver has already forced the intent to FAQ or Feedback, so the
request dispatches to the FAQ or Feedback handler and the duplicated
pending-FAQ and pending-Feedback follow-up branches inside the final
unrecognized-intent handler never run. -/
theorem pending_branches_unreachable (oracle : String → String) (threshold : ℚ)
    (st : SessionState) (req : WebhookRequest)
    (hpending : st.faqPending.contains req.sessionId = true ∨
      st.feedbackPending.contains req.sessionId = true) :
    (resolveIntent req.detectedIntent req.queryText (st.faqPending.contains req.sessionId)
        (st.feedbackPending.contains req.sessionId) = "FAQ" ∨
      resolveIntent req.detectedIntent req.queryText (st.faqPending.contains req.sessionId)
        (st.feedbackPending.contains req.sessionId) = "Feedback") ∧
    (handlePost oracle threshold st req = handleFAQ oracle st req "FAQ" ∨
      handlePost oracle threshold st req = handleFeedback oracle st req "Feedback") := by
  have hres : resolveIntent req.detectedIntent req.queryText
        (st.faqPending.contains req.sessionId) (st.feedbackPending.contains req.sessionId) =
        "FAQ" ∨
      resolveIntent req.detectedIntent req.queryText (st.faqPending.contains req.sessionId)
        (st.feedbackPending.contains req.sessionId) = "Feedback" := by
    rcases hpending with hfaq | hfb
    · rw [hfaq]
      exact resolveIntent_faq_or_feedback _ _ _
    · by_cases hfaq : st.faqPending.contains req.sessionId = true
      · rw [hfaq]
        exact resolveIntent_faq_or_feedback _ _ _
      · rw [Bool.not_eq_true] at hfaq
        rw [hfaq, hfb]
        exact Or.inr (resolveIntent_feedback _ _)
  refine ⟨hres, ?_⟩
  rcases hres with h | h
  · left
    unfold handlePost
    rw [h]
    rfl
  · right
    unfold handlePost
    rw [h]
    rfl

/-- Witness for C10 at a concrete pending-FAQ session with an un
recognized NLU intent. -/
theorem pending_branches_unreachable_witness :
    resolveIntent "Some Other Intent" "hello there" true false = "FAQ" ∨
    resolveIntent "Some Other Intent" "hello there" true false = "Feedback" :=
  (pending_branches_unreachable (fun _ => "GEN") (3 / 5) ⟨["s1"], []⟩
    ⟨"Some Other Intent", JsVal.obj [], "s1", "web", "hello there", none⟩ (Or.inl rfl)).1

/-- C8: for a Customer Support turn with numeric confidence 0.9 at the
threshold 0.6 where after extraction only the email is missing, the reply
is exactly the fixed missing-fields prompt naming email, no record is
passed to the persistence gateway, no generative call is made and the
pending-session state is unchanged. -/
theorem customer_support_missing_email (oracle : String → String) (st : SessionState)
    (req : WebhookRequest)
    (hres : resolveIntent req.detectedIntent req.queryText
        (st.faqPending.contains req.sessionId) (st.feedbackPending.contains req.sessionId) =
      "Customer Support")
    (hconf : req.intentConfidence = some (9 / 10))
    (hname : optTruthy (normalizeString ((jsOr req.parameters (JsVal.obj [])).get "name")) = true)
    (hemail : optTruthy (normalizeString ((jsOr req.parameters (JsVal.obj [])).get "email")) =
      false)
    (hmsg : optTruthy (normalizeString (jsOr ((jsOr req.parameters (JsVal.obj [])).get "message")
        (JsVal.str req.queryText))) = true) :
    (handlePost oracle (3 / 5) st req).response =
      Fulfillment.fulfillmentMessages
        [RichMessage.text
          "I still need your email. Please provide the remaining detail(s) so I can log your request."] ∧
    (handlePost oracle (3 / 5) st req).conversations = [] ∧
    (handlePost oracle (3 / 5) st req).faqRecords = [] ∧
    (handlePost oracle (3 / 5) st req).feedbackRecords = [] ∧
    (handlePost oracle (3 / 5) st req).geminiPrompts = [] ∧
    (handlePost oracle (3 / 5) st req).state = st := by
  have hd : handlePost oracle (3 / 5) st req =
      handleCustomerSupport oracle (3 / 5) st req "Customer Support" := by
    unfold handlePost
    rw [hres]
    rfl
  have hlow : ¬ ((9 : ℚ) / 10 < 3 / 5) := by norm_num
  have hcs : handleCustomerSupport oracle (3 / 5) st req "Customer Support" =
      ⟨buildMissingFieldsResponse ["email"], [], [], [], [], st⟩ := by
    unfold handleCustomerSupport
    rw [hconf]
    simp only [if_neg hlow, hname, hemail, hmsg]
    norm_num
  rw [hd, hcs]
  exact ⟨rfl, rfl, rfl, rfl, rfl, rfl⟩

/-- Witness for C8 at a concrete request: name and message slots present,
email absent, confidence 0.9. -/
theorem customer_support_missing_email_witness :
    (handlePost (fun _ => "GEN") (3 / 5) ⟨[], []⟩
        ⟨"Customer Support",
          JsVal.obj [("name", JsVal.str "Ann"), ("message", JsVal.str "my order is late")],
          "s9", "web", "please help", some (9 / 10)⟩).conversations = [] ∧
    (handlePost (fun _ => "GEN") (3 / 5) ⟨[], []⟩
        ⟨"Customer Support",
          JsVal.obj [("name", JsVal.str "Ann"), ("message", JsVal.str "my order is late")],
          "s9", "web", "please help", some (9 / 10)⟩).geminiPrompts = [] :=
  ⟨(customer_support_missing_email (fun _ => "GEN") ⟨[], []⟩
      ⟨"Customer Support",
        JsVal.obj [("name", JsVal.str "Ann"), ("message", JsVal.str "my order is late")],
        "s9", "web", "please help", some (9 / 10)⟩ rfl rfl rfl rfl rfl).2.1,
   (customer_support_missing_email (fun _ => "GEN") ⟨[], []⟩
      ⟨"Customer Support",
        JsVal.obj [("name", JsVal.str "Ann"), ("message", JsVal.str "my order is late")],
        "s9", "web", "please help", some (9 / 10)⟩ rfl rfl rfl rfl rfl).2.2.2.2.1⟩

/-- C9: for a session pending FAQ in a reachable state whose next turn
has the query text How do I create an account and no topic, subject or
faq-topic slot, the reply text is the predefined answer verbatim, the
generative fallback is not invoked and the session is removed from the
FAQ-pending set. -/
theorem faq_predefined_answer (oracle : String → String) (threshold : ℚ)
    (st : SessionState) (req : WebhookRequest) (hreach : Reachable st)
    (hpend : st.faqPending.contains req.sessionId = true)
    (hq : req.queryText = "How do I create an account?")
    (htp : req.parameters.get "topic" = JsVal.undefined)
    (hsb : req.parameters.get "subject" = JsVal.undefined)
    (hft : req.parameters.get "faq-topic" = JsVal.undefined) :
    (handlePost oracle threshold st req).response =
      Fulfillment.fulfillmentMessages [RichMessage.text createAccountAnswer] ∧
    (handlePost oracle threshold st req).geminiPrompts = [] ∧
    (handlePost oracle threshold st req).state.faqPending.contains req.sessionId = false := by
  have hfb : st.feedbackPending.contains req.sessionId = false :=
    reachable_sessionInv st hreach _ ((contains_iff_mem _ _).mp hpend)
  have hrf : resolveIntent req.detectedIntent req.queryText
      (st.faqPending.contains req.sessionId) (st.feedbackPending.contains req.sessionId) =
      "FAQ" := by
    rw [hpend, hfb]
    exact resolveIntent_faq _ _
  have hd : handlePost oracle threshold st req = handleFAQ oracle st req "FAQ" := by
    unfold handlePost
    rw [hrf]
    rfl
  have hPt : ((jsOr req.parameters (JsVal.obj [])).get "topic") = JsVal.undefined := by
    unfold jsOr
    split_ifs
    · exact htp
    · rfl
  have hPs : ((jsOr req.parameters (JsVal.obj [])).get "subject") = JsVal.undefined := by
    unfold jsOr
    split_ifs
    · exact hsb
    · rfl
  have hPf : ((jsOr req.parameters (JsVal.obj [])).get "faq-topic") = JsVal.undefined := by
    unfold jsOr
    split_ifs
    · exact hft
    · rfl
  have hPtruthy : (jsOr req.parameters (JsVal.obj [])).truthy = true := by
    unfold jsOr
    split_ifs with h
    · exact h
    · rfl
  have htopic : extractFaqTopic (jsOr req.parameters (JsVal.obj [])) req.queryText =
      some "How do I create an account?" := by
    unfold extractFaqTopic
    rw [hPtruthy, hPt, hPs, hPf, hq]
    rfl
  have hchip : isFaqChipClick req.queryText = false := by
    rw [hq]
    rfl
  have hstep : handleFAQ oracle st req "FAQ" =
      ⟨Fulfillment.fulfillmentMessages [RichMessage.text createAccountAnswer],
        [[("session_id", JsVal.str req.sessionId), ("intent_name", JsVal.str "FAQ"),
          ("user_name", optVal (extractName (jsOr req.parameters (JsVal.obj [])))),
          ("user_email", optVal (extractEmail (jsOr req.parameters (JsVal.obj [])))),
          ("user_message", JsVal.str "How do I create an account?"),
          ("channel", JsVal.str req.channel),
          ("response_text", JsVal.str createAccountAnswer), ("record_type", JsVal.str "faq"),
          ("intent_confidence", confVal req.intentConfidence),
          ("used_gemini", JsVal.bool false)]],
        [[("session_id", JsVal.str req.sessionId),
          ("user_name", optVal (extractName (jsOr req.parameters (JsVal.obj [])))),
          ("user_email", optVal (extractEmail (jsOr req.parameters (JsVal.obj [])))),
          ("question_text", JsVal.str "How do I create an account?"),
          ("answer_text", JsVal.str createAccountAnswer), ("channel", JsVal.str req.channel),
          ("intent_name", JsVal.str "FAQ"), ("intent_confidence", confVal req.intentConfidence),
          ("used_gemini", JsVal.bool false)]],
        [], [], ⟨setDelete st.faqPending req.sessionId, st.feedbackPending⟩⟩ := by
    unfold handleFAQ
    rw [hchip]
    simp only [Bool.false_eq_true, if_false]
    rw [htopic, hq]
    rfl
  rw [hd, hstep]
  exact ⟨rfl, rfl, contains_setDelete_self _ _⟩

/-- Witness for C9 at a concrete reachable pending-FAQ state and request. -/
theorem faq_predefined_answer_witness :
    (handlePost (fun _ => "GEN") (3 / 5) ⟨["s1"], []⟩
        ⟨"Whatever", JsVal.obj [], "s1", "web", "How do I create an account?", none⟩).response =
      Fulfillment.fulfillmentMessages [RichMessage.text createAccountAnswer] ∧
    (handlePost (fun _ => "GEN") (3 / 5) ⟨["s1"], []⟩
        ⟨"Whatever", JsVal.obj [], "s1", "web", "How do I create an account?",
          none⟩).geminiPrompts = [] :=
  ⟨(faq_predefined_answer (fun _ => "GEN") (3 / 5) ⟨["s1"], []⟩
      ⟨"Whatever", JsVal.obj [], "s1", "web", "How do I create an account?", none⟩
      reachable_faq_s1 rfl rfl rfl rfl rfl).1,
   (faq_predefined_answer (fun _ => "GEN") (3 / 5) ⟨["s1"], []⟩
      ⟨"Whatever", JsVal.obj [], "s1", "web", "How do I create an account?", none⟩
      reachable_faq_s1 rfl rfl rfl rfl rfl).2.1⟩

end Server
